import Mathlib

/-!
Shallow embedding of the PDF object tag of `src/web/libs/editor/src/tags/object/pdf.js`:
the `PDFRegion` model (serialize, color derivation, teardown), the `Model` actions
(`needsUpdate`, `updateRegions`, `addRegion`, `deleteRegion`, `destroyRegion`) and the
selection-finished handler of the view. External collaborators (the reactive runtime,
the external store, the rendering widget) are modelled by explicit state and parameters.
-/

namespace PDFTag

/-- The `position` value of a region is `types.frozen()` in the source: an opaque value
produced by the renderer and stored verbatim, never reinterpreted. We embed it as an
opaque string (its JSON text). -/
abbrev Position := String

/-- JavaScript truthiness of a nullable string (`undefined`/`null`/`""` are falsy),
as used by `if (self.label)`, `if (self._id)` and `if (!region.text)` in the source. -/
def jsTruthy : Option String → Bool
  | none => false
  | some s => !(s == "")

/-- Modelled from the spec: the `isDefined` helper used by `serialize` is imported from a
utility module of this repository that is not under `src/`; per the spec a value counts as
defined iff it is not null/undefined. -/
def isDefined : Option String → Bool
  | none => false
  | some _ => true

/-- A label state as consumed by the color derivation (`selectedLabels[0].background`). -/
structure LabelState where
  background : String
  deriving Repr, DecidableEq

/-- The `value` of a backing result (`results[0].value.text`). -/
structure ResultValue where
  text : Option String
  deriving Repr, DecidableEq

/-- A backing result record of the external store, as consumed by the source:
`result.value.text` and `result.selectedLabels`. -/
structure ResultRec where
  value : ResultValue
  selectedLabels : List LabelState
  deriving Repr, DecidableEq

/-- The `PDFRegion` model of the source: `_id`, `position`, `text`, `label`
(all nullable except the frozen position). `results` is the backing-result view the
composed region model exposes (accessed by `selectRegion`/`afterUnselectRegion`);
regions pushed by the `Model` actions carry no backing results of their own. -/
structure PDFRegion where
  _id : Option String
  position : Position
  text : Option String
  label : Option String
  results : List ResultRec
  deriving Repr, DecidableEq

/-- An entry of `self.regs`, the external store's authoritative region list, with the
fields `updateRegions` reads: `id`, `position`, `labels`, `text`, `results`, and the
`updateText` mutation target (`text`). -/
structure ExtRegion where
  id : String
  position : Position
  labels : List String
  text : Option String
  results : List ResultRec
  deriving Repr, DecidableEq

/-- A label control as consumed by `addRegion`: `isSelected` (used by `activeStates`),
`valueType` and `selectedValues()`. -/
structure Control where
  isSelected : Bool
  valueType : String
  selectedValues : List String
  deriving Repr, DecidableEq

/-- The state of one `PDFModel` instance together with the external collaborators the
claims observe: its tag attribute `selectionenabled`, the text-persistence setting
`savetextresult`, the label controls reachable via `states()`, the owned region store
`regions`, the external store's region list `regs`, and the external store's results. -/
structure ModelState where
  selectionenabled : Bool
  savetextresult : String
  states : List Control
  regions : List PDFRegion
  regs : List ExtRegion
  annResults : List ResultRec
  deriving Repr, DecidableEq

/-- View `hasStates`: `states && states.length > 0`. -/
def hasStates (m : ModelState) : Bool :=
  !m.states.isEmpty

/-- View `activeStates()`: `states.filter(s => s.isSelected)`. -/
def activeStates (m : ModelState) : List Control :=
  m.states.filter (fun c => c.isSelected)

/-- Modelled from the spec: `getAvailableStates()` comes from a mixin that is not under
`src/`; per the spec, `addRegion` "reads the first available label control and its
currently selected values; if none selected, aborts", i.e. it returns the label controls
with an active selection, as the in-source `activeStates()` view does. -/
def getAvailableStates (m : ModelState) : List Control :=
  activeStates m

/-- The serialized value object built by `PDFRegion.serialize`. A field holding `none`
models an absent key; `textField` holds `some v` when the `text` key is present with the
(possibly null) value `v`. -/
structure SValue where
  position : Position
  textField : Option (Option String)
  label : Option String
  id : Option String
  deriving Repr, DecidableEq

/-- Action `PDFRegion.serialize` (pdf.js lines 41-65): builds `{ value: { position, text } }`,
then conditionally re-assigns `text` when the owner's `savetextresult` is `"yes"` and the
text is defined, adds `label` when truthy and `id` when `_id` is truthy. The owner's
`savetextresult` setting is passed explicitly. -/
def serialize (savetextresult : String) (r : PDFRegion) : SValue :=
  let res : SValue := { position := r.position, textField := some r.text, label := none, id := none }
  let res := if (savetextresult == "yes") && isDefined r.text then { res with textField := some r.text } else res
  let res := if jsTruthy r.label then { res with label := r.label } else res
  let res := if jsTruthy r._id then { res with id := r._id } else res
  res

/-- The region object pushed by `updateRegions` for one external region: it reuses the
external id, position and first label; no `text` key is provided, so the model field
`text` is null, and it carries no backing results of its own. -/
def deriveRegion (r : ExtRegion) : PDFRegion :=
  { _id := some r.id, position := r.position, label := r.labels.head?, text := none, results := [] }

/-- One iteration of the `try`/`catch` body of `updateRegions` (pdf.js lines 171-186) on
one external region: when the external text is falsy, `region.updateText(region.results[0].value.text)`
runs, which throws when `results` is empty (reading `value` of `undefined`); a throw is
caught, logged and skipped, yielding no derived region and leaving the external region
unchanged. Returns the derived region (if any) and the external region after the
in-place `updateText` mutation. -/
def processRegion (r : ExtRegion) : Option PDFRegion × ExtRegion :=
  if jsTruthy r.text then
    (some (deriveRegion r), r)
  else
    match r.results with
    | [] => (none, r)
    | res :: _ => (some (deriveRegion r), { r with text := res.value.text })

/-- The `regs.forEach` loop of `updateRegions`: processes the external list in order,
collecting the successfully derived regions and threading the in-place mutations of the
external regions. -/
def updateRegionsAux : List ExtRegion → List PDFRegion × List ExtRegion
  | [] => ([], [])
  | r :: rest =>
    (match (processRegion r).1 with
     | none => (updateRegionsAux rest).1
     | some nr => nr :: (updateRegionsAux rest).1,
     (processRegion r).2 :: (updateRegionsAux rest).2)

/-- Action `Model.updateRegions` (pdf.js lines 170-188): appends the derived regions to the
region store and records the in-place mutations of the external store's regions. -/
def updateRegions (s : ModelState) : ModelState :=
  let p := updateRegionsAux s.regs
  { s with regions := s.regions ++ p.1, regs := p.2 }

/-- Action `Model.needsUpdate` (pdf.js lines 159-162): clears the region store, then rebuilds it
from the external store's list. -/
def needsUpdate (s : ModelState) : ModelState :=
  updateRegions { s with regions := [] }

/-- Action `Model.deleteRegion` (pdf.js lines 240-242): `self.regions = self.regions.filter(r => r._id !== id)`. -/
def deleteRegion (id : String) (m : ModelState) : ModelState :=
  { m with regions := m.regions.filter (fun r => !(r._id == some id)) }

/-- Action `Model.destroyRegion` (pdf.js lines 167-169): `self.regions = self.regions.filter(x => x._id !== id)`. -/
def destroyRegion (id : String) (m : ModelState) : ModelState :=
  { m with regions := m.regions.filter (fun x => !(x._id == some id)) }

/-- The `content` object of a finished selection (`highlightData.content.text`). -/
structure Content where
  text : Option String
  deriving Repr, DecidableEq

/-- The argument of `addRegion`: the drawn geometry and the extracted content. -/
structure HighlightData where
  position : Position
  content : Content
  deriving Repr, DecidableEq

/-- The region object pushed by `addRegion` on success (pdf.js lines 218-226): the fresh
id, the drawn position, the first selected value as label and the extracted text. -/
def mkNewRegion (newId : String) (hd : HighlightData) (values : List String) : PDFRegion :=
  { _id := some newId, position := hd.position, label := values.head?,
    text := hd.content.text, results := [] }

/-- Modelled from the spec: the effect of `annotation.createResult` on the external
store's results; per the spec it appends the created result on success, and a failure
(null return) "must not leave orphaned state", so the store is unchanged. -/
def createResultEffect (ann : List ResultRec) : Option ResultRec → List ResultRec
  | none => ann
  | some r => ann ++ [r]

/-- Action `Model.addRegion` (pdf.js lines 190-234). `resOutcome` is the value the external
store's `createResult` contract returns for this call. When no label control has an
active selection the action returns before calling `createResult`; otherwise the result
is created, and only when it is truthy is the new region constructed and appended. -/
def addRegion (resOutcome : Option ResultRec) (newId : String) (m : ModelState)
    (hd : HighlightData) : Option ResultRec × ModelState :=
  match getAvailableStates m with
  | [] => (none, m)
  | control :: _ =>
    let m1 := { m with annResults := createResultEffect m.annResults resOutcome }
    match resOutcome with
    | none => (none, m1)
    | some result =>
      (some result,
       { m1 with regions := m1.regions ++ [mkNewRegion newId hd control.selectedValues] })

/-- The selection pipeline of the view (pdf.js lines 361-381). The widget is created with
`enableAreaSelection={item.selectionenabled}`; that the widget delivers no selection event
while area selection is disabled is the rendering collaborator's contract (modelled from
the spec: `selectionEnabled` "gates whether new selections are accepted"). When an event
is delivered, `onSelectionFinished` warns and returns when `hasStates` is false, else
calls `addRegion`. -/
def handleSelection (resOutcome : Option ResultRec) (newId : String) (m : ModelState)
    (hd : HighlightData) : Option ResultRec × ModelState :=
  if !m.selectionenabled then (none, m)
  else if !hasStates m then (none, m)
  else addRegion resOutcome newId m hd

/-- Color derivation of `PDFRegion.selectRegion` (pdf.js line 93):
`self.results[0].selectedLabels[0].background`; `none` models the throw when a backing
result or selected label is missing. -/
def selectRegionColor (r : PDFRegion) : Option String :=
  r.results.head?.bind fun res => res.selectedLabels.head?.map fun l => l.background

/-- Color derivation of `PDFRegion.afterUnselectRegion` (pdf.js line 121):
`self.results[0].selectedLabels[0].background + "26"`. -/
def afterUnselectColor (r : PDFRegion) : Option String :=
  r.results.head?.bind fun res => res.selectedLabels.head?.map fun l => l.background ++ "26"

/-- Modelled from the spec: the deserialization path from a persisted value back to an
external-store region is not under `src/`; per the spec's persisted value shape and
round-trip contract, the rebuilt external record reuses the persisted `id` and
`position`, carries the persisted `label` as its single label, the persisted `text`, and
one backing result whose value holds that text. Absent `id` yields no record. -/
def extOfSerialized (v : SValue) : Option ExtRegion :=
  v.id.map fun i =>
    { id := i, position := v.position,
      labels := match v.label with | none => [] | some l => [l],
      text := v.textField.join,
      results := [{ value := { text := v.textField.join }, selectedLabels := [] }] }

/-- The serialize-then-derive round trip of the spec: serialize a region (with the given
text-persistence setting), rebuild the external record from the persisted value, and run
it through the `updateRegions` derivation step. -/
def roundTrip (savetextresult : String) (r : PDFRegion) : Option PDFRegion :=
  (extOfSerialized (serialize savetextresult r)).bind fun ext => (processRegion ext).1

/-! Concrete instances used by failing-input evaluations, counterexamples and witnesses. -/

/-- A region with defined text whose owner does not persist text. -/
def c1Region : PDFRegion :=
  { _id := some "r1", position := "pos0", text := some "Alice", label := some "Person", results := [] }

/-- A region with defined text, label and id, serialized with text persistence on. -/
def c2Region : PDFRegion :=
  { _id := some "r2", position := "pos2", text := some "Alice", label := some "Person", results := [] }

/-! Theorems, one per claim. -/

/-- C1: refuted as stated — the value object built by `serialize` always contains the
`text` key, because the initial object literal already includes `text: self.text`
unconditionally; the guarded assignment behind the comment "Include text if it exists and
if the parent object is configured to save text" is a no-op. At the failing input (owner
with `savetextresult = "no"`, region text `"Alice"`) the output still carries the text. -/
theorem serialize_text_key_always_present :
    ((serialize "no" c1Region).textField = some (some "Alice")) ∧
      ((serialize "no" c1Region).textField ≠ none) := by
  constructor <;> decide

/-- C10: `destroyRegion` and `deleteRegion` are extensionally equal — both replace the
region store by `regions.filter(x => x._id !== id)`. -/
theorem destroyRegion_eq_deleteRegion (id : String) (m : ModelState) :
    destroyRegion id m = deleteRegion id m := rfl

/-- C8: for a region whose first backing result's first selected label has background
`B`, the color applied by `selectRegion` is exactly `B` and the color applied by
`afterUnselectRegion` is exactly `B` with the literal hex alpha suffix `"26"` appended. -/
theorem region_colors (r : PDFRegion) (res : ResultRec) (tl : List ResultRec)
    (l : LabelState) (ls : List LabelState)
    (hr : r.results = res :: tl) (hl : res.selectedLabels = l :: ls) :
    selectRegionColor r = some l.background ∧
      afterUnselectColor r = some (l.background ++ "26") := by
  simp [selectRegionColor, afterUnselectColor, hr, hl]

/-- A region carrying a backing result with background `#FF0000`. -/
def c8Region : PDFRegion :=
  { _id := some "r8", position := "pos8", text := none, label := some "Person",
    results := [{ value := { text := none }, selectedLabels := [{ background := "#FF0000" }] }] }

/-- Witness for C8: at the concrete region with background `#FF0000`, the selected color
is `#FF0000` and the unselected color is `#FF000026`. -/
theorem region_colors_witness :
    selectRegionColor c8Region = some "#FF0000" ∧
      afterUnselectColor c8Region = some "#FF000026" :=
  region_colors c8Region
    { value := { text := none }, selectedLabels := [{ background := "#FF0000" }] } []
    { background := "#FF0000" } [] rfl rfl

/-- Two store regions sharing the id `"a"`. -/
def c7RegionA : PDFRegion :=
  { _id := some "a", position := "pos7a", text := none, label := none, results := [] }

/-- A second store region with the same id `"a"`. -/
def c7RegionB : PDFRegion :=
  { _id := some "a", position := "pos7b", text := none, label := none, results := [] }

/-- A model whose store holds two regions with the same id. -/
def c7State : ModelState :=
  { selectionenabled := true, savetextresult := "no", states := [],
    regions := [c7RegionA, c7RegionB], regs := [], annResults := [] }

/-- Counterexample to C7 as stated: on a store holding two entries with id `"a"`,
`deleteRegion("a")` removes both of them, not at most one. -/
theorem deleteRegion_removes_all_matches :
    c7State.regions.length = 2 ∧ (deleteRegion "a" c7State).regions = [] := by
  constructor <;> decide

/-- C7 amended: `deleteRegion(id)` keeps the other regions' relative order (the result is
a sublist of the store), removes exactly the entries whose `_id` equals `id` (hence
exactly one when ids are unique, and at most one never holds for duplicated ids), and is
a no-op when no entry matches. -/
theorem deleteRegion_spec (id : String) (m : ModelState) :
    ((deleteRegion id m).regions.Sublist m.regions) ∧
      (∀ r ∈ (deleteRegion id m).regions, r._id ≠ some id) ∧
      ((deleteRegion id m).regions.length
          + (m.regions.filter (fun r => r._id == some id)).length = m.regions.length) ∧
      ((∀ r ∈ m.regions, r._id ≠ some id) → deleteRegion id m = m) := by
  refine ⟨List.filter_sublist m.regions, ?_, ?_, ?_⟩
  · intro r hr
    have hp := List.of_mem_filter hr
    simpa using hp
  · have h : m.regions.length
        = (m.regions.filter (fun r => r._id == some id)).length
          + (m.regions.filter (fun r => !(r._id == some id))).length :=
      List.length_eq_length_filter_add (fun r : PDFRegion => r._id == some id)
    simpa [deleteRegion, Nat.add_comm] using h.symm
  · intro h
    have hf : m.regions.filter (fun r => !(r._id == some id)) = m.regions := by
      refine List.filter_eq_self.mpr fun a ha => ?_
      simpa using h a ha
    cases m
    simp_all [deleteRegion]

/-- Witness for C7 amended: at a concrete store with one region of id `"w7"`, deleting an
absent id is a no-op, the result is a sublist, and the length bookkeeping holds. -/
theorem deleteRegion_spec_witness :
    ((deleteRegion "other" c7State).regions.Sublist c7State.regions) ∧
      (∀ r ∈ (deleteRegion "other" c7State).regions, r._id ≠ some "other") ∧
      ((deleteRegion "other" c7State).regions.length
          + (c7State.regions.filter (fun r => r._id == some "other")).length
          = c7State.regions.length) ∧
      deleteRegion "other" c7State = c7State :=
  ⟨(deleteRegion_spec "other" c7State).1, (deleteRegion_spec "other" c7State).2.1,
    (deleteRegion_spec "other" c7State).2.2.1,
    (deleteRegion_spec "other" c7State).2.2.2 (by decide)⟩

/-- C3: the selection pipeline is a silent no-op — it returns no result and leaves the
whole model state (region store and external results included) unchanged — whenever area
selection is disabled or no label control has an active selection. -/
theorem handleSelection_silent_noop (resOutcome : Option ResultRec) (newId : String)
    (m : ModelState) (hd : HighlightData)
    (h : m.selectionenabled = false ∨ getAvailableStates m = []) :
    handleSelection resOutcome newId m hd = (none, m) := by
  rcases h with h | h
  · simp [handleSelection, h]
  · cases hsel : m.selectionenabled with
    | false => simp [handleSelection, hsel]
    | true =>
      cases hst : hasStates m with
      | false => simp [handleSelection, hsel, hst]
      | true => simp [handleSelection, hsel, hst, addRegion, h]

/-- A model with selection enabled and one label control that has no active selection. -/
def c3State : ModelState :=
  { selectionenabled := true, savetextresult := "no",
    states := [{ isSelected := false, valueType := "labels", selectedValues := [] }],
    regions := [], regs := [], annResults := [] }

/-- A concrete finished selection. -/
def c3Highlight : HighlightData :=
  { position := "pos3", content := { text := some "Alice" } }

/-- Witness for C3: with labels present but none selected, the pipeline returns no result
and changes nothing. -/
theorem handleSelection_silent_noop_witness :
    handleSelection none "id3" c3State c3Highlight = (none, c3State) :=
  handleSelection_silent_noop none "id3" c3State c3Highlight (Or.inr (by decide))

/-- C4: `addRegion` is atomic with respect to result creation — when the external
`createResult` returns a falsy result, no region is appended and the region store (and
the external results list) is unchanged; when a label control is active and the result is
created, the result and the region are both recorded. -/
theorem addRegion_atomic (newId : String) (m : ModelState) (hd : HighlightData)
    (result : ResultRec) :
    addRegion none newId m hd = (none, m) ∧
      (∀ c rest, getAvailableStates m = c :: rest →
        addRegion (some result) newId m hd =
          (some result,
            { m with regions := m.regions ++ [mkNewRegion newId hd c.selectedValues],
                     annResults := m.annResults ++ [result] })) := by
  constructor
  · unfold addRegion
    cases h : getAvailableStates m with
    | nil => rfl
    | cons c rest => rfl
  · intro c rest h
    unfold addRegion
    rw [h]
    rfl

/-- A model with one active label control selecting `"Person"`. -/
def c4State : ModelState :=
  { selectionenabled := true, savetextresult := "no",
    states := [{ isSelected := true, valueType := "labels", selectedValues := ["Person"] }],
    regions := [], regs := [], annResults := [] }

/-- A concrete created result for the witness. -/
def c4Result : ResultRec :=
  { value := { text := some "Alice" }, selectedLabels := [{ background := "#FF0000" }] }

/-- Witness for C4: with an active control, a falsy result leaves the state unchanged and
a truthy result appends exactly the result and the region. -/
theorem addRegion_atomic_witness :
    addRegion none "id4" c4State c3Highlight = (none, c4State) ∧
      addRegion (some c4Result) "id4" c4State c3Highlight =
        (some c4Result,
          { c4State with
              regions := c4State.regions ++ [mkNewRegion "id4" c3Highlight ["Person"]],
              annResults := c4State.annResults ++ [c4Result] }) :=
  ⟨(addRegion_atomic "id4" c4State c3Highlight c4Result).1,
    (addRegion_atomic "id4" c4State c3Highlight c4Result).2
      { isSelected := true, valueType := "labels", selectedValues := ["Person"] } [] (by decide)⟩

/-- Processing an external region a second time changes nothing: the derived region is
the same (derivation never reads the text it wrote back) and the in-place mutation is
already saturated. -/
theorem processRegion_idem (r : ExtRegion) :
    processRegion (processRegion r).2 = ((processRegion r).1, (processRegion r).2) := by
  cases ht : jsTruthy r.text with
  | true => simp [processRegion, ht]
  | false =>
    cases hres : r.results with
    | nil => simp [processRegion, ht, hres]
    | cons res tl =>
      cases ht2 : jsTruthy res.value.text with
      | true => simp [processRegion, ht, hres, ht2, deriveRegion]
      | false => simp [processRegion, ht, hres, ht2, deriveRegion]

/-- The derived-region component of the rebuild loop is the in-order collection of the
successfully processed entries. -/
theorem updateRegionsAux_fst (l : List ExtRegion) :
    (updateRegionsAux l).1 = l.filterMap (fun r => (processRegion r).1) := by
  induction l with
  | nil => rfl
  | cons r rest ih =>
    cases h : (processRegion r).1 <;>
      simp [updateRegionsAux, List.filterMap_cons, h, ih]

/-- The external-list component of the rebuild loop is the in-order in-place mutation of
every entry. -/
theorem updateRegionsAux_snd (l : List ExtRegion) :
    (updateRegionsAux l).2 = l.map (fun r => (processRegion r).2) := by
  induction l with
  | nil => rfl
  | cons r rest ih => simp [updateRegionsAux, ih]

/-- Rerunning the rebuild loop on the already-mutated external list reproduces its
output exactly. -/
theorem updateRegionsAux_idem (l : List ExtRegion) :
    updateRegionsAux ((updateRegionsAux l).2) = updateRegionsAux l := by
  induction l with
  | nil => rfl
  | cons r rest ih =>
    simp only [updateRegionsAux]
    rw [processRegion_idem, ih]

/-- C5: `needsUpdate` is idempotent — with no intervening external mutation, a second
call yields exactly the state of the first (same region ids, order and fields, and the
same external list). -/
theorem needsUpdate_idempotent (s : ModelState) :
    needsUpdate (needsUpdate s) = needsUpdate s := by
  cases s
  simp [needsUpdate, updateRegions, updateRegionsAux_idem]

/-- C6: the rebuild is best-effort — the region store after `needsUpdate` holds exactly
the successfully derived regions, in the order of `regs`; an entry whose derivation
throws is skipped without aborting the remainder. -/
theorem needsUpdate_skips_failures (s : ModelState) :
    (needsUpdate s).regions = s.regs.filterMap (fun r => (processRegion r).1) := by
  simp [needsUpdate, updateRegions, updateRegionsAux_fst]

/-- C9: the rebuild is not read-only on the external store — `needsUpdate` maps every
entry of `regs` through its in-place mutation; an entry with truthy text is left
unmodified, and an entry with falsy text and a first backing result gets that result's
value text written into it. -/
theorem updateRegions_writes_text_back (s : ModelState) (r q : ExtRegion)
    (res : ResultRec) (tl : List ResultRec) :
    (needsUpdate s).regs = s.regs.map (fun x => (processRegion x).2) ∧
      (jsTruthy r.text = true → (processRegion r).2 = r) ∧
      (jsTruthy q.text = false → q.results = res :: tl →
        (processRegion q).2 = { q with text := res.value.text }) := by
  refine ⟨?_, ?_, ?_⟩
  · simp [needsUpdate, updateRegions, updateRegionsAux_snd]
  · intro ht
    simp [processRegion, ht]
  · intro ht hres
    simp [processRegion, ht, hres]

/-- An external region whose text is already set. -/
def c9TruthyExt : ExtRegion :=
  { id := "e1", position := "pos9a", labels := ["Person"], text := some "Alice",
    results := [] }

/-- The backing result of the text-less external region. -/
def c9Result : ResultRec :=
  { value := { text := some "Bob" }, selectedLabels := [] }

/-- An external region with no text and one backing result. -/
def c9FalsyExt : ExtRegion :=
  { id := "e2", position := "pos9b", labels := ["Date"], text := none,
    results := [c9Result] }

/-- A model whose external list holds both kinds of entries. -/
def c9State : ModelState :=
  { selectionenabled := true, savetextresult := "no", states := [],
    regions := [], regs := [c9TruthyExt, c9FalsyExt], annResults := [] }

/-- Witness for C9: on the concrete external list, the rebuild maps the entries through
their mutation, leaves the entry with text unmodified, and writes the backing result's
text into the text-less entry. -/
theorem updateRegions_writes_text_back_witness :
    (needsUpdate c9State).regs = c9State.regs.map (fun x => (processRegion x).2) ∧
      (processRegion c9TruthyExt).2 = c9TruthyExt ∧
      (processRegion c9FalsyExt).2 = { c9FalsyExt with text := c9Result.value.text } :=
  ⟨(updateRegions_writes_text_back c9State c9TruthyExt c9FalsyExt c9Result []).1,
    (updateRegions_writes_text_back c9State c9TruthyExt c9FalsyExt c9Result []).2.1 (by decide),
    (updateRegions_writes_text_back c9State c9TruthyExt c9FalsyExt c9Result []).2.2
      (by decide) rfl⟩

/-- A truthy nullable string is a non-empty string. -/
theorem jsTruthy_eq_true {o : Option String} (h : jsTruthy o = true) :
    ∃ s, o = some s ∧ s ≠ "" := by
  cases o with
  | none => simp [jsTruthy] at h
  | some s => exact ⟨s, rfl, by simpa [jsTruthy] using h⟩

/-- Counterexample to C2 as stated: for the concrete region with persisted text
`"Alice"`, label `"Person"` and id `"r2"`, serialized under text persistence, the region
derived back from the serialized value does not carry the original text — the object
pushed by `updateRegions` has no `text` key, so the rebuilt region's text is null. -/
theorem roundTrip_drops_text :
    (roundTrip "yes" c2Region).map (fun d => d.text) ≠ some c2Region.text := by
  decide

/-- C2 amended: for a region with text-persistence enabled and truthy id, label and
text, the serialize-then-derive round trip yields a region with the same position, the
same label and the same id, but with null text (the persisted text survives only on the
rebuilt external record and its backing result, not on the derived region). -/
theorem roundTrip_restores_position_and_label (r : PDFRegion)
    (hid : jsTruthy r._id = true) (hl : jsTruthy r.label = true)
    (ht : jsTruthy r.text = true) :
    ∃ d, roundTrip "yes" r = some d ∧ d.position = r.position ∧ d.label = r.label ∧
      d._id = r._id ∧ d.text = none := by
  obtain ⟨i, hi, hine⟩ := jsTruthy_eq_true hid
  obtain ⟨lab, hlab, hlabne⟩ := jsTruthy_eq_true hl
  obtain ⟨t, htx, htne⟩ := jsTruthy_eq_true ht
  refine ⟨{ _id := some i, position := r.position, label := some lab, text := none,
            results := [] }, ?_, rfl, by rw [hlab], by rw [hi], rfl⟩
  simp [roundTrip, serialize, extOfSerialized, processRegion, deriveRegion,
    hid, hl, hi, hlab, htx, isDefined, jsTruthy, htne, hine, hlabne]

/-- Witness for C2 amended: at the concrete region, the round trip restores position,
label and id, and nulls the text. -/
theorem roundTrip_restores_position_and_label_witness :
    ∃ d, roundTrip "yes" c2Region = some d ∧ d.position = c2Region.position ∧
      d.label = c2Region.label ∧ d._id = c2Region._id ∧ d.text = none :=
  roundTrip_restores_position_and_label c2Region (by decide) (by decide) (by decide)

end PDFTag
